import Mathlib

/-!
Shallow embedding of the gesture-classification and mode-transition core of the
Noel Magic hand-tracking application.

Sources embedded here:
* src/hooks/useHandTracking.ts — the onResults landmark classifier (centroid,
  finger-open tests, hand scale, pinch distance, gesture priority cascade), the
  initial published hand state, and the frame loop whose try/catch swallows a
  frame error without updating state.
* src/App.tsx — the gesture state-transition effect over AppMode (Fist and
  OpenHand branches, guarded on hand presence).
* src/components/MagicParticles.tsx — the pinch selection logic in the frame
  loop (Pinch while Scatter with no active photo and at least one photo selects
  a random photo index and enters PhotoView) and the cleanup effect that clears
  the active photo index whenever the mode is not PhotoView.

Real-number coordinates model the JavaScript float arithmetic; Math.hypot is
embedded as the square root of the sum of squares.
-/

namespace NoelMagic

/-- One hand landmark: normalized image coordinates plus relative depth,
as delivered by the MediaPipe results callback. -/
structure Landmark where
  x : ℝ
  y : ℝ
  z : ℝ

/-- Gesture symbols, from src types (enum GestureType). -/
inductive GestureType where
  | NONE
  | OPEN_HAND
  | FIST
  | PINCH
deriving DecidableEq, Repr

/-- Application modes, from src types (enum AppMode). -/
inductive AppMode where
  | TREE
  | SCATTER
  | PHOTO_VIEW
deriving DecidableEq, Repr

/-- Published hand state, from src types (interface HandData). -/
structure HandData where
  gesture : GestureType
  x : ℝ
  y : ℝ
  isPresent : Bool

/-- Embedding of Math.hypot on two arguments. -/
noncomputable def hypot (a b : ℝ) : ℝ := Real.sqrt (a ^ 2 + b ^ 2)

/-- Horizontal centroid: (palmBase.x + middleFingerKnuckle.x) / 2 with
palmBase = landmarks[0] and middleFingerKnuckle = landmarks[9]. -/
noncomputable def centerX (l : Fin 21 → Landmark) : ℝ := ((l 0).x + (l 9).x) / 2

/-- Vertical centroid: (palmBase.y + middleFingerKnuckle.y) / 2. -/
noncomputable def centerY (l : Fin 21 → Landmark) : ℝ := ((l 0).y + (l 9).y) / 2

/-- Index finger open test: landmarks[8].y < landmarks[6].y. -/
def isIndexOpen (l : Fin 21 → Landmark) : Prop := (l 8).y < (l 6).y

/-- Middle finger open test: landmarks[12].y < landmarks[10].y. -/
def isMiddleOpen (l : Fin 21 → Landmark) : Prop := (l 12).y < (l 10).y

/-- Ring finger open test: landmarks[16].y < landmarks[14].y. -/
def isRingOpen (l : Fin 21 → Landmark) : Prop := (l 16).y < (l 14).y

/-- Pinky finger open test: landmarks[20].y < landmarks[18].y. -/
def isPinkyOpen (l : Fin 21 → Landmark) : Prop := (l 20).y < (l 18).y

noncomputable instance (l : Fin 21 → Landmark) : Decidable (isIndexOpen l) :=
  inferInstanceAs (Decidable ((l 8).y < (l 6).y))

noncomputable instance (l : Fin 21 → Landmark) : Decidable (isMiddleOpen l) :=
  inferInstanceAs (Decidable ((l 12).y < (l 10).y))

noncomputable instance (l : Fin 21 → Landmark) : Decidable (isRingOpen l) :=
  inferInstanceAs (Decidable ((l 16).y < (l 14).y))

noncomputable instance (l : Fin 21 → Landmark) : Decidable (isPinkyOpen l) :=
  inferInstanceAs (Decidable ((l 20).y < (l 18).y))

/-- Number of open fingers among index, middle, ring, pinky:
[isIndexOpen, isMiddleOpen, isRingOpen, isPinkyOpen].filter(Boolean).length. -/
noncomputable def openFingersCount (l : Fin 21 → Landmark) : ℕ :=
  (if isIndexOpen l then 1 else 0) + (if isMiddleOpen l then 1 else 0) +
    (if isRingOpen l then 1 else 0) + (if isPinkyOpen l then 1 else 0)

/-- Dynamic scale: Math.hypot(landmarks[0].x - landmarks[9].x, landmarks[0].y - landmarks[9].y). -/
noncomputable def handScale (l : Fin 21 → Landmark) : ℝ :=
  hypot ((l 0).x - (l 9).x) ((l 0).y - (l 9).y)

/-- Pinch distance: Math.hypot(landmarks[8].x - landmarks[4].x, landmarks[8].y - landmarks[4].y). -/
noncomputable def pinchDist (l : Fin 21 → Landmark) : ℝ :=
  hypot ((l 8).x - (l 4).x) ((l 8).y - (l 4).y)

/-- Gesture decision cascade from onResults: FIST if no finger is open, else
PINCH if the pinch distance is below the absolute threshold 0.05 or below
handScale * 0.5, else OPEN_HAND if at least three fingers are open, else NONE. -/
noncomputable def detectGesture (l : Fin 21 → Landmark) : GestureType :=
  if openFingersCount l = 0 then GestureType.FIST
  else if pinchDist l < 0.05 ∨ pinchDist l < handScale l * 0.5 then GestureType.PINCH
  else if 3 ≤ openFingersCount l then GestureType.OPEN_HAND
  else GestureType.NONE

/-- Hand state published by onResults when a hand is present: the detected
gesture, the horizontally mirrored centroid, and isPresent = true. -/
noncomputable def classifyHand (l : Fin 21 → Landmark) : HandData :=
  { gesture := detectGesture l
    x := 1 - centerX l
    y := centerY l
    isPresent := true }

/-- Embedding of the onResults callback over a possibly malformed frame. The
classifier reads landmark indices 0, 4, 6, 8, 9, 10, 12, 14, 16, 18 and 20, so
a frame whose first hand has fewer than 21 landmarks hits a missing index and
the JavaScript property access throws; this is the error case. With no hand,
the previous state is kept except isPresent := false and gesture := NONE. -/
noncomputable def onResults (multiHandLandmarks : List (List Landmark)) (prev : HandData) :
    Except Unit HandData :=
  match multiHandLandmarks with
  | landmarks :: _ =>
      if h : 21 ≤ landmarks.length then
        Except.ok (classifyHand fun i => landmarks.get ⟨i.1, lt_of_lt_of_le i.2 h⟩)
      else
        Except.error ()
  | [] => Except.ok { prev with isPresent := false, gesture := GestureType.NONE }

/-- Effect of one frame on the published hand state: processFrame wraps the
send call in a try with an empty catch, so an error thrown while handling a
frame is swallowed and the previously published state stays in place. -/
noncomputable def frameUpdate (multiHandLandmarks : List (List Landmark)) (prev : HandData) :
    HandData :=
  match onResults multiHandLandmarks prev with
  | Except.ok next => next
  | Except.error _ => prev

/-- Initial published hand state from useState in useHandTracking. -/
noncomputable def initialHandData : HandData :=
  { gesture := GestureType.NONE, x := 0.5, y := 0.5, isPresent := false }

/-- Controller state: the AppMode plus the active photo index held by
MagicParticles (null when no photo is focused). -/
structure ControllerState where
  mode : AppMode
  activePhotoIndex : Option ℕ
deriving DecidableEq, Repr

/-- Initial controller state: useState(AppMode.TREE) in App and
useState(null) for the active photo index in MagicParticles. -/
def initialControllerState : ControllerState :=
  { mode := AppMode.TREE, activePhotoIndex := none }

/-- Gesture state transition effect in App: returns early when the hand is not
present, then Fist forces TREE when not already there, OpenHand moves TREE to
SCATTER, and OpenHand moves PHOTO_VIEW to SCATTER. -/
def appEffect (sig : HandData) (mode : AppMode) : AppMode :=
  if sig.isPresent = false then mode
  else if sig.gesture = GestureType.FIST ∧ mode ≠ AppMode.TREE then AppMode.TREE
  else if sig.gesture = GestureType.OPEN_HAND ∧ mode = AppMode.TREE then AppMode.SCATTER
  else if sig.gesture = GestureType.OPEN_HAND ∧ mode = AppMode.PHOTO_VIEW then AppMode.SCATTER
  else mode

/-- Random photo selection: Math.floor(Math.random() * photoParticles.length)
with the random draw r in [0,1) supplied as an oracle. -/
def pickIndex (r : ℚ) (numPhotos : ℕ) : ℕ := ⌊r * numPhotos⌋₊

/-- Pinch selection step in the MagicParticles frame loop: when the gesture is
PINCH, the mode is SCATTER, no photo is active and at least one photo particle
exists, select a random photo index and enter PHOTO_VIEW. Note that this check
does not test hand presence. -/
def pinchFrameEffect (sig : HandData) (numPhotos : ℕ) (r : ℚ) (s : ControllerState) :
    ControllerState :=
  if sig.gesture = GestureType.PINCH ∧ s.mode = AppMode.SCATTER ∧
      s.activePhotoIndex = none ∧ 0 < numPhotos then
    { mode := AppMode.PHOTO_VIEW, activePhotoIndex := some (pickIndex r numPhotos) }
  else s

/-- Cleanup effect in MagicParticles: whenever the mode is not PHOTO_VIEW the
active photo index is reset to null. -/
def syncActiveEffect (s : ControllerState) : ControllerState :=
  if s.mode ≠ AppMode.PHOTO_VIEW then { s with activePhotoIndex := none } else s

/-- One controller step for one incoming hand signal: the App transition
effect, then the pinch selection in the frame loop, then the cleanup effect
that keeps the active photo index in sync with the mode. -/
def controllerStep (sig : HandData) (numPhotos : ℕ) (r : ℚ) (s : ControllerState) :
    ControllerState :=
  syncActiveEffect (pinchFrameEffect sig numPhotos r { s with mode := appEffect sig s.mode })

/-- Iterated controller steps over a list of signals paired with their random
draws, with a fixed photo count. -/
def runSignals (numPhotos : ℕ) (sigs : List (HandData × ℚ)) (s : ControllerState) :
    ControllerState :=
  sigs.foldl (fun st p => controllerStep p.1 numPhotos p.2 st) s

/-- States of the controller reachable from the initial state under any
sequence of signals, photo counts and random draws. -/
inductive Reachable : ControllerState → Prop where
  | init : Reachable initialControllerState
  | step (sig : HandData) (numPhotos : ℕ) (r : ℚ) {s : ControllerState} :
      Reachable s → Reachable (controllerStep sig numPhotos r s)

/-! Sample hands used to instantiate the classifier theorems. -/

/-- Closed hand with the thumb tip exactly on the index tip, so the pinch
distance is zero: every fingertip sits numerically below its PIP joint. -/
noncomputable def fistSample : Fin 21 → Landmark := fun i =>
  if i.1 = 4 then ⟨0.5, 0.7, 0⟩
  else if i.1 = 8 ∨ i.1 = 12 ∨ i.1 = 16 ∨ i.1 = 20 then ⟨0.5, 0.7, 0⟩
  else ⟨0.5, 0.3, 0⟩

/-- Open hand far from the camera center: all four fingers open, thumb far
from the index tip both absolutely and relative to the hand scale. -/
noncomputable def openHandSample : Fin 21 → Landmark := fun i =>
  if i.1 = 0 then ⟨0.5, 0.9, 0⟩
  else if i.1 = 9 then ⟨0.5, 0.6, 0⟩
  else if i.1 = 4 then ⟨0.1, 0.5, 0⟩
  else if i.1 = 8 ∨ i.1 = 12 ∨ i.1 = 16 ∨ i.1 = 20 then ⟨0.5, 0.5, 0⟩
  else if i.1 = 6 ∨ i.1 = 10 ∨ i.1 = 14 ∨ i.1 = 18 then ⟨0.5, 0.6, 0⟩
  else ⟨0, 0, 0⟩

/-- Very small apparent hand (wrist and middle knuckle 0.001 apart) with three
open fingers and a thumb-index distance of 0.04: the distance is 80 times the
relative pinch threshold yet still below the absolute threshold 0.05. -/
noncomputable def tinyHandSample : Fin 21 → Landmark := fun i =>
  if i.1 = 0 then ⟨0.5, 0.9, 0⟩
  else if i.1 = 9 then ⟨0.5, 901 / 1000, 0⟩
  else if i.1 = 4 then ⟨0.54, 0.5, 0⟩
  else if i.1 = 8 ∨ i.1 = 12 ∨ i.1 = 16 then ⟨0.5, 0.5, 0⟩
  else if i.1 = 6 ∨ i.1 = 10 ∨ i.1 = 14 then ⟨0.5, 0.6, 0⟩
  else if i.1 = 20 then ⟨0.5, 0.6, 0⟩
  else if i.1 = 18 then ⟨0.5, 0.5, 0⟩
  else ⟨0, 0, 0⟩

theorem tinyHandSample_handScale : handScale tinyHandSample = 1 / 1000 := by
  show hypot ((0.5 : ℝ) - 0.5) ((0.9 : ℝ) - 901 / 1000) = 1 / 1000
  unfold hypot
  have h : ((0.5 : ℝ) - 0.5) ^ 2 + ((0.9 : ℝ) - 901 / 1000) ^ 2 = (1 / 1000 : ℝ) ^ 2 := by
    norm_num
  rw [h, Real.sqrt_sq (by norm_num)]

theorem tinyHandSample_pinchDist : pinchDist tinyHandSample = 1 / 25 := by
  show hypot ((0.5 : ℝ) - 0.54) ((0.5 : ℝ) - 0.5) = 1 / 25
  unfold hypot
  have h : ((0.5 : ℝ) - 0.54) ^ 2 + ((0.5 : ℝ) - 0.5) ^ 2 = (1 / 25 : ℝ) ^ 2 := by
    norm_num
  rw [h, Real.sqrt_sq (by norm_num)]

theorem tinyHandSample_open : openFingersCount tinyHandSample = 3 := by
  have hi : isIndexOpen tinyHandSample := by
    show (0.5 : ℝ) < 0.6
    norm_num
  have hm : isMiddleOpen tinyHandSample := by
    show (0.5 : ℝ) < 0.6
    norm_num
  have hr : isRingOpen tinyHandSample := by
    show (0.5 : ℝ) < 0.6
    norm_num
  have hp : ¬ isPinkyOpen tinyHandSample := by
    show ¬ (0.6 : ℝ) < 0.5
    norm_num
  unfold openFingersCount
  rw [if_pos hi, if_pos hm, if_pos hr, if_neg hp]

theorem openHandSample_handScale : handScale openHandSample = 3 / 10 := by
  show hypot ((0.5 : ℝ) - 0.5) ((0.9 : ℝ) - 0.6) = 3 / 10
  unfold hypot
  have h : ((0.5 : ℝ) - 0.5) ^ 2 + ((0.9 : ℝ) - 0.6) ^ 2 = (3 / 10 : ℝ) ^ 2 := by
    norm_num
  rw [h, Real.sqrt_sq (by norm_num)]

theorem openHandSample_pinchDist : pinchDist openHandSample = 2 / 5 := by
  show hypot ((0.5 : ℝ) - 0.1) ((0.5 : ℝ) - 0.5) = 2 / 5
  unfold hypot
  have h : ((0.5 : ℝ) - 0.1) ^ 2 + ((0.5 : ℝ) - 0.5) ^ 2 = (2 / 5 : ℝ) ^ 2 := by
    norm_num
  rw [h, Real.sqrt_sq (by norm_num)]

theorem openHandSample_open : openFingersCount openHandSample = 4 := by
  have hi : isIndexOpen openHandSample := by
    show (0.5 : ℝ) < 0.6
    norm_num
  have hm : isMiddleOpen openHandSample := by
    show (0.5 : ℝ) < 0.6
    norm_num
  have hr : isRingOpen openHandSample := by
    show (0.5 : ℝ) < 0.6
    norm_num
  have hp : isPinkyOpen openHandSample := by
    show (0.5 : ℝ) < 0.6
    norm_num
  unfold openFingersCount
  rw [if_pos hi, if_pos hm, if_pos hr, if_pos hp]

/-- C1: the gesture is decided in strict priority order with first match
winning (Fist for a fully closed hand, then Pinch by either threshold, then
OpenHand for at least three open fingers, then None); and for every input
satisfying the Fist condition (all four non-thumb fingertips numerically below
their PIP joints) the result is Fist, with no assumption on the thumb-index
distance. -/
theorem classifyHand_priority (l : Fin 21 → Landmark) :
    ((classifyHand l).gesture =
      if openFingersCount l = 0 then GestureType.FIST
      else if pinchDist l < 0.05 ∨ pinchDist l < handScale l * 0.5 then GestureType.PINCH
      else if 3 ≤ openFingersCount l then GestureType.OPEN_HAND
      else GestureType.NONE) ∧
    ((l 6).y < (l 8).y → (l 10).y < (l 12).y → (l 14).y < (l 16).y → (l 18).y < (l 20).y →
      (classifyHand l).gesture = GestureType.FIST) := by
  constructor
  · rfl
  · intro h1 h2 h3 h4
    have n1 : ¬ isIndexOpen l := lt_asymm h1
    have n2 : ¬ isMiddleOpen l := lt_asymm h2
    have n3 : ¬ isRingOpen l := lt_asymm h3
    have n4 : ¬ isPinkyOpen l := lt_asymm h4
    have hz : openFingersCount l = 0 := by
      unfold openFingersCount
      rw [if_neg n1, if_neg n2, if_neg n3, if_neg n4]
    show detectGesture l = GestureType.FIST
    unfold detectGesture
    rw [if_pos hz]

/-- C1 witness: a concrete closed hand whose thumb tip coincides with the
index tip (pinch distance zero) is still classified as Fist. -/
theorem classifyHand_priority_witness :
    ((fistSample 6).y < (fistSample 8).y ∧ (fistSample 10).y < (fistSample 12).y ∧
      (fistSample 14).y < (fistSample 16).y ∧ (fistSample 18).y < (fistSample 20).y) ∧
    (classifyHand fistSample).gesture = GestureType.FIST := by
  have h1 : (fistSample 6).y < (fistSample 8).y := by
    show (0.3 : ℝ) < 0.7
    norm_num
  have h2 : (fistSample 10).y < (fistSample 12).y := by
    show (0.3 : ℝ) < 0.7
    norm_num
  have h3 : (fistSample 14).y < (fistSample 16).y := by
    show (0.3 : ℝ) < 0.7
    norm_num
  have h4 : (fistSample 18).y < (fistSample 20).y := by
    show (0.3 : ℝ) < 0.7
    norm_num
  exact ⟨⟨h1, h2, h3, h4⟩, (classifyHand_priority fistSample).2 h1 h2 h3 h4⟩

/-- C6: the reported cursor is the horizontally mirrored centroid of the wrist
landmark (index 0) and the middle-finger-base landmark (index 9): the x output
is one minus the x midpoint and the y output is the y midpoint unchanged. -/
theorem classifyHand_cursor (l : Fin 21 → Landmark) :
    (classifyHand l).x = 1 - ((l 0).x + (l 9).x) / 2 ∧
    (classifyHand l).y = ((l 0).y + (l 9).y) / 2 :=
  ⟨rfl, rfl⟩

/-- C8 counterexample: a hand with three open fingers whose thumb-index
distance (0.04) is eighty times the relative threshold handScale * 0.5 is
classified as Pinch, not OpenHand, because the distance is still below the
absolute threshold 0.05. -/
theorem classifyHand_openHand_counterexample :
    3 ≤ openFingersCount tinyHandSample ∧
    10 * (handScale tinyHandSample * 0.5) < pinchDist tinyHandSample ∧
    (classifyHand tinyHandSample).gesture = GestureType.PINCH ∧
    (classifyHand tinyHandSample).gesture ≠ GestureType.OPEN_HAND := by
  have hc : 3 ≤ openFingersCount tinyHandSample := by
    rw [tinyHandSample_open]
  have hfar : 10 * (handScale tinyHandSample * 0.5) < pinchDist tinyHandSample := by
    rw [tinyHandSample_handScale, tinyHandSample_pinchDist]
    norm_num
  have hg : (classifyHand tinyHandSample).gesture = GestureType.PINCH := by
    have hne : ¬ openFingersCount tinyHandSample = 0 := by
      rw [tinyHandSample_open]
      norm_num
    have hlt : pinchDist tinyHandSample < 0.05 ∨
        pinchDist tinyHandSample < handScale tinyHandSample * 0.5 :=
      Or.inl (by rw [tinyHandSample_pinchDist]; norm_num)
    show detectGesture tinyHandSample = GestureType.PINCH
    unfold detectGesture
    rw [if_neg hne, if_pos hlt]
  exact ⟨hc, hfar, hg, by rw [hg]; exact fun h => GestureType.noConfusion h⟩

/-- C8 amended: with at least three open fingers, a thumb-index distance of at
least the absolute threshold 0.05 and at least the relative threshold
handScale * 0.5, the classifier returns OpenHand. -/
theorem classifyHand_openHand (l : Fin 21 → Landmark)
    (hc : 3 ≤ openFingersCount l)
    (h1 : 0.05 ≤ pinchDist l) (h2 : handScale l * 0.5 ≤ pinchDist l) :
    (classifyHand l).gesture = GestureType.OPEN_HAND := by
  have hne : ¬ openFingersCount l = 0 := by omega
  have hout : ¬ (pinchDist l < 0.05 ∨ pinchDist l < handScale l * 0.5) := by
    push_neg
    exact ⟨h1, h2⟩
  show detectGesture l = GestureType.OPEN_HAND
  unfold detectGesture
  rw [if_neg hne, if_neg hout, if_pos hc]

/-- C8 witness: a concrete open hand (four open fingers, pinch distance 0.4,
hand scale 0.3) is classified as OpenHand. -/
theorem classifyHand_openHand_witness :
    (3 ≤ openFingersCount openHandSample ∧ (0.05 : ℝ) ≤ pinchDist openHandSample ∧
      handScale openHandSample * 0.5 ≤ pinchDist openHandSample) ∧
    (classifyHand openHandSample).gesture = GestureType.OPEN_HAND := by
  have hc : 3 ≤ openFingersCount openHandSample := by
    rw [openHandSample_open]
    norm_num
  have h1 : (0.05 : ℝ) ≤ pinchDist openHandSample := by
    rw [openHandSample_pinchDist]
    norm_num
  have h2 : handScale openHandSample * 0.5 ≤ pinchDist openHandSample := by
    rw [openHandSample_handScale, openHandSample_pinchDist]
    norm_num
  exact ⟨⟨hc, h1, h2⟩, classifyHand_openHand openHandSample hc h1 h2⟩

/-- Previously published hand state with a hand present, used to show what a
malformed frame leaves behind. -/
noncomputable def stalePresent : HandData :=
  { gesture := GestureType.NONE, x := 0.5, y := 0.5, isPresent := true }

/-- C7 counterexample: a frame whose hand has a single landmark makes the
classifier fail, and the frame loop leaves the previously published state in
place, so presence stays true instead of being set to false as claimed. -/
theorem malformedFrame_counterexample :
    onResults [[⟨0, 0, 0⟩]] stalePresent = Except.error () ∧
    frameUpdate [[⟨0, 0, 0⟩]] stalePresent = stalePresent ∧
    stalePresent.isPresent = true :=
  ⟨rfl, rfl, rfl⟩

/-- C7 amended: a malformed frame (fewer than 21 landmarks on the first hand)
makes classification fail; the frame loop swallows the failure locally and
continues, leaving the published hand state unchanged at its previous value
(presence keeps its prior value rather than being forced to false). -/
theorem malformedFrame_swallowed (landmarks : List Landmark)
    (rest : List (List Landmark)) (prev : HandData)
    (hbad : ¬ 21 ≤ landmarks.length) :
    onResults (landmarks :: rest) prev = Except.error () ∧
    frameUpdate (landmarks :: rest) prev = prev := by
  have h1 : onResults (landmarks :: rest) prev = Except.error () := by
    simp only [onResults]
    rw [dif_neg hbad]
  refine ⟨h1, ?_⟩
  unfold frameUpdate
  rw [h1]

/-- C7 witness: a concrete single-landmark frame fails classification and the
initial published state survives it unchanged. -/
theorem malformedFrame_swallowed_witness :
    ¬ 21 ≤ ([⟨0, 0, 0⟩] : List Landmark).length ∧
    onResults [[⟨0, 0, 0⟩]] initialHandData = Except.error () ∧
    frameUpdate [[⟨0, 0, 0⟩]] initialHandData = initialHandData := by
  have hbad : ¬ 21 ≤ ([⟨0, 0, 0⟩] : List Landmark).length := by norm_num
  have h := malformedFrame_swallowed [⟨0, 0, 0⟩] [] initialHandData hbad
  exact ⟨hbad, h.1, h.2⟩

/-- C10: before any frame the published signal is exactly gesture None,
x = 0.5, y = 0.5, present false; and a frame with no detected hand sets only
the gesture (to None) and the presence flag (to false) while x and y keep
their previous values. -/
theorem handData_initial_and_absent (prev : HandData) :
    initialHandData.gesture = GestureType.NONE ∧ initialHandData.x = 0.5 ∧
    initialHandData.y = 0.5 ∧ initialHandData.isPresent = false ∧
    frameUpdate [] prev = { prev with isPresent := false, gesture := GestureType.NONE } ∧
    (frameUpdate [] prev).x = prev.x ∧ (frameUpdate [] prev).y = prev.y ∧
    (frameUpdate [] prev).gesture = GestureType.NONE ∧
    (frameUpdate [] prev).isPresent = false :=
  ⟨rfl, rfl, rfl, rfl, rfl, rfl, rfl, rfl, rfl⟩

/-! Helper lemmas about the controller step. -/

theorem syncActiveEffect_mode (s : ControllerState) : (syncActiveEffect s).mode = s.mode := by
  unfold syncActiveEffect
  split_ifs <;> rfl

theorem appEffect_absent (sig : HandData) (m : AppMode) (hp : sig.isPresent = false) :
    appEffect sig m = m := by
  unfold appEffect
  rw [if_pos hp]

theorem appEffect_pinch (sig : HandData) (m : AppMode)
    (hg : sig.gesture = GestureType.PINCH) : appEffect sig m = m := by
  simp [appEffect, hg]

theorem appEffect_none (sig : HandData) (m : AppMode)
    (hg : sig.gesture = GestureType.NONE) : appEffect sig m = m := by
  simp [appEffect, hg]

theorem appEffect_fist (sig : HandData) (m : AppMode) (hp : sig.isPresent = true)
    (hg : sig.gesture = GestureType.FIST) : appEffect sig m = AppMode.TREE := by
  cases m <;> simp [appEffect, hp, hg]

theorem appEffect_open (sig : HandData) (m : AppMode) (hp : sig.isPresent = true)
    (hg : sig.gesture = GestureType.OPEN_HAND) : appEffect sig m = AppMode.SCATTER := by
  cases m <;> simp [appEffect, hp, hg]

theorem appEffect_photoView_inv (sig : HandData) (m : AppMode)
    (h : appEffect sig m = AppMode.PHOTO_VIEW) : m = AppMode.PHOTO_VIEW := by
  unfold appEffect at h
  split_ifs at h <;> simp_all

theorem pinchFrameEffect_notPinch (sig : HandData) (numPhotos : ℕ) (r : ℚ)
    (s : ControllerState) (hg : sig.gesture ≠ GestureType.PINCH) :
    pinchFrameEffect sig numPhotos r s = s := by
  unfold pinchFrameEffect
  exact if_neg fun hc => hg hc.1

theorem pickIndex_lt (r : ℚ) (numPhotos : ℕ) (hr0 : 0 ≤ r) (hr1 : r < 1)
    (hn : 0 < numPhotos) : pickIndex r numPhotos < numPhotos := by
  unfold pickIndex
  have hn2 : (0 : ℚ) < numPhotos := by exact_mod_cast hn
  have : r * numPhotos < 1 * numPhotos := by
    exact mul_lt_mul_of_pos_right hr1 hn2
  rw [one_mul] at this
  rw [Nat.floor_lt (by positivity)]
  exact this


theorem controllerStep_mode_notPinch (sig : HandData) (numPhotos : ℕ) (r : ℚ)
    (s : ControllerState) (hg : sig.gesture ≠ GestureType.PINCH) :
    (controllerStep sig numPhotos r s).mode = appEffect sig s.mode := by
  unfold controllerStep
  rw [pinchFrameEffect_notPinch _ _ _ _ hg, syncActiveEffect_mode]

theorem controllerStep_clears (sig : HandData) (numPhotos : ℕ) (r : ℚ) (s : ControllerState)
    (h : (controllerStep sig numPhotos r s).mode ≠ AppMode.PHOTO_VIEW) :
    (controllerStep sig numPhotos r s).activePhotoIndex = none := by
  unfold controllerStep at h ⊢
  by_cases hm : (pinchFrameEffect sig numPhotos r
      { s with mode := appEffect sig s.mode }).mode ≠ AppMode.PHOTO_VIEW
  · unfold syncActiveEffect
    rw [if_pos hm]
  · push_neg at hm
    rw [syncActiveEffect_mode] at h
    exact absurd hm h

theorem controllerStep_preserves_inv (sig : HandData) (numPhotos : ℕ) (r : ℚ)
    (s : ControllerState) (h : s.activePhotoIndex ≠ none ↔ s.mode = AppMode.PHOTO_VIEW) :
    (controllerStep sig numPhotos r s).activePhotoIndex ≠ none ↔
      (controllerStep sig numPhotos r s).mode = AppMode.PHOTO_VIEW := by
  unfold controllerStep
  by_cases hguard : sig.gesture = GestureType.PINCH ∧
      ({ s with mode := appEffect sig s.mode } : ControllerState).mode = AppMode.SCATTER ∧
      ({ s with mode := appEffect sig s.mode } : ControllerState).activePhotoIndex = none ∧
      0 < numPhotos
  · have ht : pinchFrameEffect sig numPhotos r { s with mode := appEffect sig s.mode } =
        { mode := AppMode.PHOTO_VIEW, activePhotoIndex := some (pickIndex r numPhotos) } := by
      unfold pinchFrameEffect
      rw [if_pos hguard]
    rw [ht]
    simp [syncActiveEffect]
  · have ht : pinchFrameEffect sig numPhotos r { s with mode := appEffect sig s.mode } =
        { s with mode := appEffect sig s.mode } := by
      unfold pinchFrameEffect
      rw [if_neg hguard]
    rw [ht]
    by_cases hm1 : appEffect sig s.mode = AppMode.PHOTO_VIEW
    · have hsm : s.mode = AppMode.PHOTO_VIEW := appEffect_photoView_inv sig s.mode hm1
      have hact : s.activePhotoIndex ≠ none := h.mpr hsm
      unfold syncActiveEffect
      rw [if_neg (not_not_intro hm1)]
      simpa [hm1] using hact
    · unfold syncActiveEffect
      rw [if_pos hm1]
      simp [hm1]

theorem reachable_inv (s : ControllerState) (h : Reachable s) :
    s.activePhotoIndex ≠ none ↔ s.mode = AppMode.PHOTO_VIEW := by
  induction h with
  | init => simp [initialControllerState]
  | step sig numPhotos r hs ih => exact controllerStep_preserves_inv _ _ _ _ ih

/-! Controller claim theorems. -/

/-- C2: for present signals, Fist ends in TREE from every mode (a no-op when
already there), OpenHand moves TREE to SCATTER, OpenHand moves PHOTO_VIEW to
SCATTER (never TREE) clearing the active photo, and signals matching no
trigger (None, OpenHand in SCATTER, Pinch with a failing guard) leave the
mode unchanged. -/
theorem controllerStep_transitions (sig : HandData) (numPhotos : ℕ) (r : ℚ)
    (s : ControllerState) (hp : sig.isPresent = true) :
    (sig.gesture = GestureType.FIST →
      (controllerStep sig numPhotos r s).mode = AppMode.TREE) ∧
    (sig.gesture = GestureType.OPEN_HAND → s.mode = AppMode.TREE →
      (controllerStep sig numPhotos r s).mode = AppMode.SCATTER) ∧
    (sig.gesture = GestureType.OPEN_HAND → s.mode = AppMode.PHOTO_VIEW →
      (controllerStep sig numPhotos r s).mode = AppMode.SCATTER ∧
      (controllerStep sig numPhotos r s).activePhotoIndex = none ∧
      (controllerStep sig numPhotos r s).mode ≠ AppMode.TREE) ∧
    (sig.gesture = GestureType.NONE →
      (controllerStep sig numPhotos r s).mode = s.mode) ∧
    (sig.gesture = GestureType.OPEN_HAND → s.mode = AppMode.SCATTER →
      (controllerStep sig numPhotos r s).mode = s.mode) ∧
    (sig.gesture = GestureType.PINCH →
      ¬ (s.mode = AppMode.SCATTER ∧ s.activePhotoIndex = none ∧ 0 < numPhotos) →
      (controllerStep sig numPhotos r s).mode = s.mode) := by
  obtain ⟨m, a⟩ := s
  refine ⟨fun hg => ?_, fun hg hm => ?_, fun hg hm => ?_, fun hg => ?_, fun hg hm => ?_,
    fun hg hng => ?_⟩
  · cases m <;> simp_all [controllerStep, appEffect, pinchFrameEffect, syncActiveEffect]
  · cases m <;> simp_all [controllerStep, appEffect, pinchFrameEffect, syncActiveEffect]
  · cases m <;> simp_all [controllerStep, appEffect, pinchFrameEffect, syncActiveEffect]
  · cases m <;> simp_all [controllerStep, appEffect, pinchFrameEffect, syncActiveEffect]
  · cases m <;> simp_all [controllerStep, appEffect, pinchFrameEffect, syncActiveEffect]
  · cases m
    case TREE => simp_all [controllerStep, appEffect, pinchFrameEffect, syncActiveEffect]
    case SCATTER =>
      cases a with
      | some k => simp_all [controllerStep, appEffect, pinchFrameEffect, syncActiveEffect]
      | none =>
          rcases Nat.eq_zero_or_pos numPhotos with hn | hn
          · subst hn
            simp_all [controllerStep, appEffect, pinchFrameEffect, syncActiveEffect]
          · exact absurd ⟨rfl, rfl, hn⟩ hng
    case PHOTO_VIEW => simp_all [controllerStep, appEffect, pinchFrameEffect, syncActiveEffect]

/-- C2 witness: a present OpenHand signal in PhotoView moves the controller to
Scatter and clears the active photo. -/
theorem controllerStep_transitions_witness :
    (⟨GestureType.OPEN_HAND, 0.5, 0.5, true⟩ : HandData).isPresent = true ∧
    (controllerStep ⟨GestureType.OPEN_HAND, 0.5, 0.5, true⟩ 1 0
        ⟨AppMode.PHOTO_VIEW, some 0⟩).mode = AppMode.SCATTER ∧
    (controllerStep ⟨GestureType.OPEN_HAND, 0.5, 0.5, true⟩ 1 0
        ⟨AppMode.PHOTO_VIEW, some 0⟩).activePhotoIndex = none := by
  have h := (controllerStep_transitions ⟨GestureType.OPEN_HAND, 0.5, 0.5, true⟩ 1 0
    ⟨AppMode.PHOTO_VIEW, some 0⟩ rfl).2.2.1 rfl rfl
  exact ⟨rfl, h.1, h.2.1⟩

/-- C3: a present Pinch in Scatter moves to PhotoView exactly when the active
photo is null and at least one photo exists, and then selects a valid index of
the photo collection; while in PhotoView a continued Pinch changes nothing
(level-triggered guard); and from Tree with one photo the sequence
OpenHand, Pinch ends in PhotoView with the only photo (index 0) active. -/
theorem controllerStep_pinch_selection (sig : HandData) (numPhotos : ℕ) (r : ℚ)
    (s : ControllerState) (hp : sig.isPresent = true)
    (hg : sig.gesture = GestureType.PINCH) (hr0 : 0 ≤ r) (hr1 : r < 1) :
    (s.mode = AppMode.SCATTER →
      ((controllerStep sig numPhotos r s).mode = AppMode.PHOTO_VIEW ↔
        s.activePhotoIndex = none ∧ 0 < numPhotos)) ∧
    (s.mode = AppMode.SCATTER → s.activePhotoIndex = none → 0 < numPhotos →
      (controllerStep sig numPhotos r s).activePhotoIndex = some (pickIndex r numPhotos) ∧
      pickIndex r numPhotos < numPhotos) ∧
    (s.mode = AppMode.PHOTO_VIEW → controllerStep sig numPhotos r s = s) ∧
    (∀ r2 : ℚ, runSignals 1
        [(⟨GestureType.OPEN_HAND, 0.5, 0.5, true⟩, r2), (⟨GestureType.PINCH, 0.5, 0.5, true⟩, r)]
        initialControllerState =
      { mode := AppMode.PHOTO_VIEW, activePhotoIndex := some 0 }) := by
  have hfloor : pickIndex r 1 = 0 := by
    unfold pickIndex
    rw [Nat.cast_one, mul_one]
    exact Nat.floor_eq_zero.mpr hr1
  obtain ⟨m, a⟩ := s
  refine ⟨fun hm => ?_, fun hm ha hn => ?_, fun hm => ?_, fun r2 => ?_⟩
  · have hm2 : m = AppMode.SCATTER := hm
    subst hm2
    cases a with
    | none =>
        rcases Nat.eq_zero_or_pos numPhotos with hn | hn
        · subst hn
          simp [controllerStep, appEffect, pinchFrameEffect, syncActiveEffect, hg, hp]
        · simp [controllerStep, appEffect, pinchFrameEffect, syncActiveEffect, hg, hp, hn]
    | some k =>
        simp [controllerStep, appEffect, pinchFrameEffect, syncActiveEffect, hg, hp]
  · have hm2 : m = AppMode.SCATTER := hm
    have ha2 : a = none := ha
    subst hm2
    subst ha2
    refine ⟨?_, pickIndex_lt r numPhotos hr0 hr1 hn⟩
    simp [controllerStep, appEffect, pinchFrameEffect, syncActiveEffect, hg, hp, hn]
  · have hm2 : m = AppMode.PHOTO_VIEW := hm
    subst hm2
    simp [controllerStep, appEffect, pinchFrameEffect, syncActiveEffect, hg, hp]
  · simp [runSignals, controllerStep, appEffect, pinchFrameEffect, syncActiveEffect,
      initialControllerState, hfloor]

/-- C3 witness: a present Pinch in Scatter with one photo and no active photo
selects a valid index. -/
theorem controllerStep_pinch_selection_witness :
    ((⟨GestureType.PINCH, 0.5, 0.5, true⟩ : HandData).isPresent = true ∧
      (⟨GestureType.PINCH, 0.5, 0.5, true⟩ : HandData).gesture = GestureType.PINCH ∧
      (0 : ℚ) ≤ 1 / 2 ∧ (1 / 2 : ℚ) < 1) ∧
    (controllerStep ⟨GestureType.PINCH, 0.5, 0.5, true⟩ 1 (1 / 2)
        ⟨AppMode.SCATTER, none⟩).activePhotoIndex = some (pickIndex (1 / 2) 1) ∧
    pickIndex (1 / 2) 1 < 1 := by
  have h := (controllerStep_pinch_selection ⟨GestureType.PINCH, 0.5, 0.5, true⟩ 1 (1 / 2)
    ⟨AppMode.SCATTER, none⟩ rfl rfl (by norm_num) (by norm_num)).2.1 rfl rfl (by norm_num)
  exact ⟨⟨rfl, rfl, by norm_num, by norm_num⟩, h.1, h.2⟩

/-- C4: in every reachable controller state the active photo index is non-null
exactly when the mode is PhotoView; the initial state is Tree with no active
photo; and any step whose resulting mode is not PhotoView has cleared the
active photo index within that same step. -/
theorem reachable_active_iff_photoView (s : ControllerState) (h : Reachable s) :
    (s.activePhotoIndex ≠ none ↔ s.mode = AppMode.PHOTO_VIEW) ∧
    initialControllerState.mode = AppMode.TREE ∧
    initialControllerState.activePhotoIndex = none ∧
    ∀ sig numPhotos r, (controllerStep sig numPhotos r s).mode ≠ AppMode.PHOTO_VIEW →
      (controllerStep sig numPhotos r s).activePhotoIndex = none :=
  ⟨reachable_inv s h, rfl, rfl,
    fun sig numPhotos r hm => controllerStep_clears sig numPhotos r s hm⟩

/-- C4 witness: the invariant evaluated at the reachable state obtained from
the initial state by an OpenHand step and then a Pinch step. -/
theorem reachable_active_iff_photoView_witness :
    (controllerStep ⟨GestureType.PINCH, 0.5, 0.5, true⟩ 1 0
        (controllerStep ⟨GestureType.OPEN_HAND, 0.5, 0.5, true⟩ 1 0
          initialControllerState)).activePhotoIndex ≠ none ↔
      (controllerStep ⟨GestureType.PINCH, 0.5, 0.5, true⟩ 1 0
        (controllerStep ⟨GestureType.OPEN_HAND, 0.5, 0.5, true⟩ 1 0
          initialControllerState)).mode = AppMode.PHOTO_VIEW :=
  (reachable_active_iff_photoView _
    (Reachable.step _ _ _ (Reachable.step _ _ _ Reachable.init))).1

/-- C5 counterexample: an absent signal whose stale gesture field reads Pinch
does change the mode, because the pinch selection check in the frame loop does
not test presence: from Scatter with one photo and no active photo the
controller moves to PhotoView. -/
theorem absent_signal_counterexample :
    (⟨GestureType.PINCH, 0.5, 0.5, false⟩ : HandData).isPresent = false ∧
    (controllerStep ⟨GestureType.PINCH, 0.5, 0.5, false⟩ 1 0 ⟨AppMode.SCATTER, none⟩).mode =
      AppMode.PHOTO_VIEW ∧
    AppMode.PHOTO_VIEW ≠ AppMode.SCATTER := by
  refine ⟨rfl, ?_, by decide⟩
  rfl

/-- C5 amended: an absent signal whose gesture is not Pinch never changes the
mode; the App transition effect ignores absent signals entirely, but the pinch
selection in the frame loop is not presence-guarded, so the restriction to
non-Pinch gestures is necessary (the classifier itself never publishes a Pinch
gesture together with present = false). -/
theorem absent_signal_mode_unchanged (sig : HandData) (numPhotos : ℕ) (r : ℚ)
    (s : ControllerState) (hp : sig.isPresent = false)
    (hg : sig.gesture ≠ GestureType.PINCH) :
    (controllerStep sig numPhotos r s).mode = s.mode := by
  rw [controllerStep_mode_notPinch sig numPhotos r s hg]
  exact appEffect_absent sig s.mode hp

/-- C5 witness: an absent signal with a stale Fist gesture leaves the mode at
Scatter. -/
theorem absent_signal_mode_unchanged_witness :
    ((⟨GestureType.FIST, 0.5, 0.5, false⟩ : HandData).isPresent = false ∧
      (⟨GestureType.FIST, 0.5, 0.5, false⟩ : HandData).gesture ≠ GestureType.PINCH) ∧
    (controllerStep ⟨GestureType.FIST, 0.5, 0.5, false⟩ 1 0 ⟨AppMode.SCATTER, none⟩).mode =
      AppMode.SCATTER :=
  ⟨⟨rfl, by decide⟩,
    absent_signal_mode_unchanged ⟨GestureType.FIST, 0.5, 0.5, false⟩ 1 0
      ⟨AppMode.SCATTER, none⟩ rfl (by decide)⟩

/-- C9: a present Pinch while in Scatter with zero focusable items is silently
ignored: the mode stays Scatter and the active photo index stays null; the
controller step is a total function, so no error condition is produced. -/
theorem pinch_zero_photos_ignored (sig : HandData) (r : ℚ) (s : ControllerState)
    (hp : sig.isPresent = true) (hg : sig.gesture = GestureType.PINCH)
    (hm : s.mode = AppMode.SCATTER) (ha : s.activePhotoIndex = none) :
    (controllerStep sig 0 r s).mode = AppMode.SCATTER ∧
    (controllerStep sig 0 r s).activePhotoIndex = none := by
  obtain ⟨m, a⟩ := s
  have hm2 : m = AppMode.SCATTER := hm
  have ha2 : a = none := ha
  subst hm2
  subst ha2
  simp [controllerStep, appEffect, pinchFrameEffect, syncActiveEffect, hg, hp]

/-- C9 witness: the ignored Pinch at the concrete Scatter state with zero
photos. -/
theorem pinch_zero_photos_ignored_witness :
    ((⟨GestureType.PINCH, 0.5, 0.5, true⟩ : HandData).isPresent = true ∧
      (⟨GestureType.PINCH, 0.5, 0.5, true⟩ : HandData).gesture = GestureType.PINCH) ∧
    (controllerStep ⟨GestureType.PINCH, 0.5, 0.5, true⟩ 0 0 ⟨AppMode.SCATTER, none⟩).mode =
      AppMode.SCATTER ∧
    (controllerStep ⟨GestureType.PINCH, 0.5, 0.5, true⟩ 0 0
        ⟨AppMode.SCATTER, none⟩).activePhotoIndex = none := by
  have h := pinch_zero_photos_ignored ⟨GestureType.PINCH, 0.5, 0.5, true⟩ 0
    ⟨AppMode.SCATTER, none⟩ rfl rfl rfl rfl
  exact ⟨⟨rfl, rfl⟩, h.1, h.2⟩

end NoelMagic
